import Mathlib

/-!
Verification of the ODE plugin bridge (ODESimulatorItem / ODELink / ODEBody /
NailedObjectManager) against its natural-language specification.

The geometry and kinematics of the plugin are embedded shallowly over the
real numbers: 3-vectors and 3x3 matrices are concrete structures, and each
C++ member function that a claim refers to is translated into a Lean
function of the same name operating on those structures.  External solver
internals (the ODE library's own integrator and broad phase) are abstracted
as function parameters, matching the specification's scoping.
-/

noncomputable section

open Real

/-- A 3-vector of reals, mirroring `cnoid::Vector3` / `Eigen::Vector3d`. -/
@[ext]
structure V3 where
  x : ℝ
  y : ℝ
  z : ℝ

namespace V3

instance : Zero V3 := ⟨⟨0, 0, 0⟩⟩
instance : Add V3 := ⟨fun a b => ⟨a.x + b.x, a.y + b.y, a.z + b.z⟩⟩
instance : Neg V3 := ⟨fun a => ⟨-a.x, -a.y, -a.z⟩⟩
instance : Sub V3 := ⟨fun a b => ⟨a.x - b.x, a.y - b.y, a.z - b.z⟩⟩
instance : SMul ℝ V3 := ⟨fun r a => ⟨r * a.x, r * a.y, r * a.z⟩⟩

@[simp] theorem zero_x : (0 : V3).x = 0 := rfl
@[simp] theorem zero_y : (0 : V3).y = 0 := rfl
@[simp] theorem zero_z : (0 : V3).z = 0 := rfl
@[simp] theorem add_x (a b : V3) : (a + b).x = a.x + b.x := rfl
@[simp] theorem add_y (a b : V3) : (a + b).y = a.y + b.y := rfl
@[simp] theorem add_z (a b : V3) : (a + b).z = a.z + b.z := rfl
@[simp] theorem sub_x (a b : V3) : (a - b).x = a.x - b.x := rfl
@[simp] theorem sub_y (a b : V3) : (a - b).y = a.y - b.y := rfl
@[simp] theorem sub_z (a b : V3) : (a - b).z = a.z - b.z := rfl
@[simp] theorem neg_x (a : V3) : (-a).x = -a.x := rfl
@[simp] theorem neg_y (a : V3) : (-a).y = -a.y := rfl
@[simp] theorem neg_z (a : V3) : (-a).z = -a.z := rfl
@[simp] theorem smul_x (r : ℝ) (a : V3) : (r • a).x = r * a.x := rfl
@[simp] theorem smul_y (r : ℝ) (a : V3) : (r • a).y = r * a.y := rfl
@[simp] theorem smul_z (r : ℝ) (a : V3) : (r • a).z = r * a.z := rfl

/-- Cross product of 3-vectors (Eigen's `cross`). -/
def cross (a b : V3) : V3 :=
  ⟨a.y * b.z - a.z * b.y, a.z * b.x - a.x * b.z, a.x * b.y - a.y * b.x⟩

/-- Dot product of 3-vectors (Eigen's `dot`). -/
def dot (a b : V3) : ℝ := a.x * b.x + a.y * b.y + a.z * b.z

/-- Euclidean norm of a 3-vector (Eigen's `norm`). -/
def vnorm (a : V3) : ℝ := Real.sqrt (dot a a)

/-- Eigen's `normalize`: divide a vector by its norm. -/
def vnormalize (a : V3) : V3 := (vnorm a)⁻¹ • a

@[simp] theorem cross_x (a b : V3) : (cross a b).x = a.y * b.z - a.z * b.y := rfl
@[simp] theorem cross_y (a b : V3) : (cross a b).y = a.z * b.x - a.x * b.z := rfl
@[simp] theorem cross_z (a b : V3) : (cross a b).z = a.x * b.y - a.y * b.x := rfl

theorem dot_cross_left (a b : V3) : dot (cross a b) b = 0 := by
  simp only [dot, cross]
  ring

theorem dot_self_nonneg (a : V3) : 0 ≤ dot a a := by
  simp only [dot]
  nlinarith [mul_self_nonneg a.x, mul_self_nonneg a.y, mul_self_nonneg a.z]

theorem eq_zero_of_dot_self_eq_zero {a : V3} (h : dot a a = 0) : a = 0 := by
  simp only [dot] at h
  have hx : a.x = 0 := by
    nlinarith [mul_self_nonneg a.x, mul_self_nonneg a.y, mul_self_nonneg a.z]
  have hy : a.y = 0 := by
    nlinarith [mul_self_nonneg a.x, mul_self_nonneg a.y, mul_self_nonneg a.z]
  have hz : a.z = 0 := by
    nlinarith [mul_self_nonneg a.x, mul_self_nonneg a.y, mul_self_nonneg a.z]
  ext <;> simp [hx, hy, hz]

end V3

/-- A 3x3 real matrix, row-major, mirroring `cnoid::Matrix3`. -/
@[ext]
structure M3 where
  m00 : ℝ
  m01 : ℝ
  m02 : ℝ
  m10 : ℝ
  m11 : ℝ
  m12 : ℝ
  m20 : ℝ
  m21 : ℝ
  m22 : ℝ

namespace M3

/-- Matrix-vector product. -/
def mulVec (m : M3) (v : V3) : V3 :=
  ⟨m.m00 * v.x + m.m01 * v.y + m.m02 * v.z,
   m.m10 * v.x + m.m11 * v.y + m.m12 * v.z,
   m.m20 * v.x + m.m21 * v.y + m.m22 * v.z⟩

/-- Matrix transpose. -/
def transpose (m : M3) : M3 :=
  ⟨m.m00, m.m10, m.m20, m.m01, m.m11, m.m21, m.m02, m.m12, m.m22⟩

/-- The identity matrix. -/
def ident : M3 := ⟨1, 0, 0, 0, 1, 0, 0, 0, 1⟩

end M3

/-!
## Kinematic state transfer (`ODELink::setKinematicStateToODE*` /
`ODELink::getKinematicStateFromODE*`)

State of one link in the kinematic model: position `p`, rotation `R`,
linear velocity `v`, angular velocity `w`.  The constant centre-of-mass
offset `c` (`link->c()`) is passed separately.  Only the branch for a link
owning a solver body (`bodyID != 0`, i.e. a link of a non-static body) is
modelled, as in the claims.
-/

/-- Kinematic state of one link of the model (`link->p/R/v/w`). -/
@[ext]
structure LinkKin where
  p : V3
  R : M3
  v : V3
  w : V3

/-- State of one ODE rigid body: position, rotation, linear and angular
velocity as held by the solver. -/
@[ext]
structure ODEBodyKin where
  pos : V3
  rot : M3
  linVel : V3
  angVel : V3

/-- The `toInternal` basis change of the source: `(x, y, z) ↦ (x, z, -y)`
(solver-Y = model-Z, solver-Z = -model-Y). -/
def toInternal (v : V3) : V3 := ⟨v.x, v.z, -v.y⟩

/-- Embedding of `ODELink::setKinematicStateToODE` (direct convention, body branch):
push rotation, centre-of-mass position and velocities to the solver. -/
def setKinematicStateToODE (c : V3) (s : LinkKin) : ODEBodyKin :=
  let lc := s.R.mulVec c
  { pos := s.p + lc
    rot := s.R
    linVel := s.v + V3.cross s.w lc
    angVel := s.w }

/-- Embedding of `ODELink::getKinematicStateFromODE` (direct convention): pull the solver
state back into the link. -/
def getKinematicStateFromODE (c : V3) (b : ODEBodyKin) : LinkKin :=
  let R := b.rot
  let lc := R.mulVec c
  { p := b.pos - lc
    R := R
    w := b.angVel
    v := b.linVel - V3.cross b.angVel lc }

/-- Embedding of `ODELink::setKinematicStateToODEflip` (flipped convention, body branch).
The rotation rows and all vectors are re-expressed in the flipped basis. -/
def setKinematicStateToODEflip (c : V3) (s : LinkKin) : ODEBodyKin :=
  let T := s.R
  let lc := T.mulVec c
  let cpos := s.p + lc
  let vv := s.v + V3.cross s.w lc
  { pos := ⟨cpos.x, cpos.z, -cpos.y⟩
    rot := ⟨T.m00, T.m01, T.m02, T.m20, T.m21, T.m22, -T.m10, -T.m11, -T.m12⟩
    linVel := ⟨vv.x, vv.z, -vv.y⟩
    angVel := ⟨s.w.x, s.w.z, -s.w.y⟩ }

/-- Embedding of `ODELink::getKinematicStateFromODEflip`: pull the solver state back,
undoing the flipped basis on every component. -/
def getKinematicStateFromODEflip (c : V3) (b : ODEBodyKin) : LinkKin :=
  let R : M3 :=
    ⟨b.rot.m00, b.rot.m01, b.rot.m02,
     -b.rot.m20, -b.rot.m21, -b.rot.m22,
     b.rot.m10, b.rot.m11, b.rot.m12⟩
  let cc := toInternal (R.mulVec c)
  let p := b.pos - cc
  let w := b.angVel
  let v := b.linVel - V3.cross w cc
  { p := ⟨p.x, -p.z, p.y⟩
    R := R
    w := ⟨w.x, -w.z, w.y⟩
    v := ⟨v.x, -v.z, v.y⟩ }

/-- C1: pushing kinematic state to the solver and pulling it back, under the
same convention (direct or flipped), reproduces the original link position,
rotation, linear velocity and angular velocity exactly; in particular
`getKinematicStateFromODEflip` is the exact algebraic inverse of
`setKinematicStateToODEflip` on those components. -/
theorem push_then_pull_roundtrip (c : V3) (s : LinkKin) :
    getKinematicStateFromODE c (setKinematicStateToODE c s) = s ∧
    getKinematicStateFromODEflip c (setKinematicStateToODEflip c s) = s := by
  constructor
  · simp only [getKinematicStateFromODE, setKinematicStateToODE]
    ext <;> simp [V3.cross, M3.mulVec]
  · simp only [getKinematicStateFromODEflip, setKinematicStateToODEflip, toInternal]
    ext <;> simp [V3.cross, M3.mulVec] <;> ring

/-!
## Contact resolution (`nearCallback`, `ODESimulatorItemImpl::collisionCallback`)

A tracked (crawler) link registered in `crawlerLinks` carries its world
rotation `R`, joint axis `a`, joint type and commanded values `dq`/`u`.
Per-contact classification is a pure function of the crawler lookups for
the two bodies, the optional mecanum-wheel barrel-angle settings, the
penetration depth, the contact normal and the global friction coefficient.
-/

/-- Joint-type tags of `cnoid::Link` relevant to contact handling. -/
inductive JointType where
  | rotational
  | slide
  | free
  | fixedJoint
  | pseudoContinuousTrack
  | crawler
deriving DecidableEq

/-- The data of a crawler link consulted by the contact callbacks:
world rotation `R` (`link->R()`), joint axis `a` (`link->a()`), joint type,
joint velocity `dq` and joint torque `u`. -/
structure CrawlerLink where
  R : M3
  a : V3
  jointType : JointType
  dq : ℝ
  u : ℝ

/-- Surface parameters written into the `dContact` before the contact joint
is created: either plain isotropic friction (`dContactApprox1`, `mu`), or
the anisotropic tracked-contact mode (`dContactFDir1 | dContactMotion1 |
dContactMu2 | ...`) with `mu`, `mu2`, target slip `motion1` and friction
direction `fdir1`. -/
inductive SurfaceParams where
  | isotropic (mu : ℝ)
  | anisotropic (mu : ℝ) (mu2 : ℝ) (motion1 : ℝ) (fdir1 : V3)

/-- Eigen's `AngleAxis(theta, n).toRotationMatrix()` (Rodrigues formula,
for a unit axis `n`). -/
def angleAxisMatrix (theta : ℝ) (n : V3) : M3 :=
  let c := Real.cos theta
  let s := Real.sin theta
  let t := 1 - c
  ⟨c + n.x * n.x * t, n.x * n.y * t - n.z * s, n.x * n.z * t + n.y * s,
   n.y * n.x * t + n.z * s, c + n.y * n.y * t, n.y * n.z * t - n.x * s,
   n.z * n.x * t - n.y * s, n.z * n.y * t + n.x * s, c + n.z * n.z * t⟩

/-- The mecanum-wheel direction adjustment of `nearCallback`:
`AngleAxis(barrelAngle, n).toRotationMatrix().transpose() * dir`. -/
def mecanumRotatedDir (barrelAngle : ℝ) (n dir : V3) : V3 :=
  (angleAxisMatrix barrelAngle n).transpose.mulVec dir

/-- The barrel angle stored into `mecanumWheelSetting` by
`ODESimulatorItemImpl::preserveMecanumWheelSetting` for one configured
crawler link: `none` is an absent/short `barrelAngles` listing (the stored
angle stays at its initialisation `0.0`); a configured value `d2 != 0` is
stored as `0.0` when within `0.00001` of `PI_2` and unchanged otherwise,
and a configured `0.0` is stored as `PI_2`. -/
def storedBarrelAngle : Option ℝ → ℝ
  | none => 0
  | some d2 => if d2 ≠ 0 then (if |π / 2 - d2| < 0.00001 then 0 else d2) else π / 2

/-- Crawler-link resolution of the contact callbacks: the lookup for the
second body overwrites the lookup for the first. -/
def resolvedCrawler (c1 c2 : Option CrawlerLink) : Option CrawlerLink :=
  match c2 with
  | some l => some l
  | none => c1

/-- The direction sign of the contact callbacks: `-1.0` exactly when the
second body is found in `crawlerLinks`, else the initial `1.0`. -/
def resolvedSign (c2 : Option CrawlerLink) : ℝ :=
  if c2.isSome then -1 else 1

/-- The effective mecanum-wheel setting: taken from the body whose crawler
lookup decided `crawlerlink` (the second body overwrites the first). -/
def resolvedMecanum (c1 : Option CrawlerLink) (c2 : Option CrawlerLink)
    (m1 m2 : Option ℝ) : Option ℝ :=
  match c2 with
  | some _ => m2
  | none =>
    match c1 with
    | some _ => m1
    | none => none

/-- Per-contact surface classification shared by `nearCallback` (with the
resolved crawler link, sign and mecanum setting): `none` means the contact
is discarded and no contact joint is created. -/
def contactSurface (friction : ℝ) (crawlerlink : Option CrawlerLink)
    (sign : ℝ) (mec : Option ℝ) (depth : ℝ) (n : V3) : Option SurfaceParams :=
  match crawlerlink with
  | none => some (.isotropic friction)
  | some l =>
    if depth > 0.001 then
      none
    else
      let axis := l.R.mulVec l.a
      let dir0 := V3.cross axis n
      let dir1 :=
        match mec with
        | some barrelAngle => mecanumRotatedDir barrelAngle n dir0
        | none => dir0
      if V3.vnorm dir1 < 1.0e-5 then
        some (.isotropic friction)
      else
        some (.anisotropic friction 0.5
          (if l.jointType = .pseudoContinuousTrack then l.dq else l.u)
          (V3.vnormalize (sign • dir1)))

/-- One contact of the built-in near-phase callback `nearCallback`:
`c1`/`c2` are the `crawlerLinks` lookups for the two bodies, `m1`/`m2` the
mecanum-wheel settings, `depth` and `n` the contact geometry. -/
def nearCallbackContact (friction : ℝ) (c1 c2 : Option CrawlerLink)
    (m1 m2 : Option ℝ) (depth : ℝ) (n : V3) : Option SurfaceParams :=
  contactSurface friction (resolvedCrawler c1 c2) (resolvedSign c2)
    (resolvedMecanum c1 c2 m1 m2) depth n

/-- One contact of the external-collision-service callback
`ODESimulatorItemImpl::collisionCallback`: the contact normal is the
negated collision normal, there is no mecanum handling, and the slip
target is always the torque field `u`. -/
def collisionCallbackContact (friction : ℝ) (c1 c2 : Option CrawlerLink)
    (depth : ℝ) (normal : V3) : Option SurfaceParams :=
  let n : V3 := ⟨-normal.x, -normal.y, -normal.z⟩
  match resolvedCrawler c1 c2 with
  | none => some (.isotropic friction)
  | some l =>
    if depth > 0.001 then
      none
    else
      let axis := l.R.mulVec l.a
      let dir0 := V3.cross axis n
      if V3.vnorm dir0 < 1.0e-5 then
        some (.isotropic friction)
      else
        some (.anisotropic friction 0.5 l.u
          (V3.vnormalize ((resolvedSign c2) • dir0)))

theorem V3.one_smul_v (v : V3) : (1 : ℝ) • v = v := by
  ext <;> simp

theorem V3.vnorm_unit_x : V3.vnorm ⟨1, 0, 0⟩ = 1 := by
  simp [V3.vnorm, V3.dot]

theorem V3.vnorm_zero_v : V3.vnorm 0 = 0 := by
  simp [V3.vnorm, V3.dot]

/-- A concrete pseudo-continuous-track link used by witnesses: identity
world rotation, joint axis `(0,1,0)`, commanded joint velocity `dq = 1`,
torque `u = 0`. -/
def sampleCrawlerLink : CrawlerLink :=
  ⟨M3.ident, ⟨0, 1, 0⟩, .pseudoContinuousTrack, 1, 0⟩

theorem sampleCrawlerLink_axis :
    (sampleCrawlerLink.R).mulVec sampleCrawlerLink.a = ⟨0, 1, 0⟩ := by
  ext <;> simp [sampleCrawlerLink, M3.ident, M3.mulVec]

theorem sampleCrawlerLink_dir :
    V3.cross ((sampleCrawlerLink.R).mulVec sampleCrawlerLink.a) ⟨0, 0, 1⟩ = ⟨1, 0, 0⟩ := by
  rw [sampleCrawlerLink_axis]
  ext <;> simp [V3.cross]

theorem storedBarrelAngle_some_zero : storedBarrelAngle (some 0) = π / 2 := by
  simp [storedBarrelAngle]

theorem storedBarrelAngle_none : storedBarrelAngle none = 0 := rfl

theorem storedBarrelAngle_some_pi_div_two : storedBarrelAngle (some (π / 2)) = 0 := by
  have hπ : (π / 2 : ℝ) ≠ 0 := by positivity
  simp [storedBarrelAngle, hπ]
  norm_num

theorem mecanumRotatedDir_zero (n d : V3) : mecanumRotatedDir 0 n d = d := by
  ext <;>
    simp [mecanumRotatedDir, angleAxisMatrix, M3.transpose, M3.mulVec,
      Real.cos_zero, Real.sin_zero]

/-- C2 counterexample: explicitly configuring the barrel angle to `0` does
not make the rotation code path run with a zero rotation: the stored angle
is `PI_2`, not `0`, and for contact normal `(0,0,1)` and plain rolling
direction `(1,0,0)` the resulting direction differs from the un-rotated
one. -/
theorem mecanum_configured_zero_counterexample :
    storedBarrelAngle (some 0) ≠ 0 ∧
    mecanumRotatedDir (storedBarrelAngle (some 0)) ⟨0, 0, 1⟩ ⟨1, 0, 0⟩ ≠ ⟨1, 0, 0⟩ := by
  have hs : storedBarrelAngle (some 0) = π / 2 := storedBarrelAngle_some_zero
  constructor
  · rw [hs]
    positivity
  · rw [hs]
    intro h
    have hy := congrArg V3.y h
    simp [mecanumRotatedDir, angleAxisMatrix, M3.transpose, M3.mulVec,
      Real.cos_pi_div_two, Real.sin_pi_div_two] at hy

/-- C2 (amended): leaving the barrel angle unconfigured stores an applied
rotation of `0` — the same stored value as explicitly configuring `PI_2` —
and therefore yields the plain-track rolling direction unchanged;
explicitly configuring the barrel angle to `0` stores an applied rotation
of `PI_2`, so the rotation code path runs with a quarter-turn about the
contact normal, producing a direction distinct from the plain-track one
(not a zero rotation). -/
theorem mecanum_barrel_angle_behavior :
    storedBarrelAngle none = 0 ∧
    storedBarrelAngle (some (π / 2)) = 0 ∧
    (∀ n d : V3, mecanumRotatedDir (storedBarrelAngle none) n d = d) ∧
    storedBarrelAngle (some 0) = π / 2 ∧
    (∀ a n : V3, V3.cross a n ≠ 0 →
      mecanumRotatedDir (storedBarrelAngle (some 0)) n (V3.cross a n) ≠ V3.cross a n) := by
  refine ⟨storedBarrelAngle_none, storedBarrelAngle_some_pi_div_two, ?_,
    storedBarrelAngle_some_zero, ?_⟩
  · intro n d
    rw [storedBarrelAngle_none]
    exact mecanumRotatedDir_zero n d
  · intro a n hd heq
    rw [storedBarrelAngle_some_zero] at heq
    have hdot : V3.dot (mecanumRotatedDir (π / 2) n (V3.cross a n)) (V3.cross a n) = 0 := by
      simp only [mecanumRotatedDir, angleAxisMatrix, M3.transpose, M3.mulVec, V3.dot, V3.cross,
        Real.cos_pi_div_two, Real.sin_pi_div_two]
      ring
    rw [heq] at hdot
    exact hd (V3.eq_zero_of_dot_self_eq_zero hdot)

/-- Witness for C2: the distinctness part applied at the concrete track
axis `(0,1,0)` and contact normal `(0,0,1)`. -/
theorem mecanum_barrel_angle_behavior_witness :
    V3.cross ⟨0, 1, 0⟩ ⟨0, 0, 1⟩ ≠ 0 ∧
    mecanumRotatedDir (storedBarrelAngle (some 0)) ⟨0, 0, 1⟩ (V3.cross ⟨0, 1, 0⟩ ⟨0, 0, 1⟩) ≠
      V3.cross ⟨0, 1, 0⟩ ⟨0, 0, 1⟩ := by
  have h : V3.cross ⟨0, 1, 0⟩ ⟨0, 0, 1⟩ ≠ 0 := by
    intro hh
    have := congrArg V3.x hh
    simp [V3.cross] at this
  exact ⟨h, mecanum_barrel_angle_behavior.2.2.2.2 ⟨0, 1, 0⟩ ⟨0, 0, 1⟩ h⟩

/-- C4: a narrow-phase contact involving a tracked link whose penetration
depth exceeds `0.001` creates no contact constraint joint, in both the
built-in near-phase callback and the external-collision-service callback. -/
theorem tracked_deep_contact_discarded (friction : ℝ) (c1 c2 : Option CrawlerLink)
    (m1 m2 : Option ℝ) (depth : ℝ) (n normal : V3) (l : CrawlerLink)
    (hc : resolvedCrawler c1 c2 = some l) (hdepth : depth > 0.001) :
    nearCallbackContact friction c1 c2 m1 m2 depth n = none ∧
    collisionCallbackContact friction c1 c2 depth normal = none := by
  constructor
  · simp [nearCallbackContact, contactSurface, hc, hdepth]
  · simp [collisionCallbackContact, hc, hdepth]

/-- Witness for C4 at a concrete tracked contact of depth `0.002`. -/
theorem tracked_deep_contact_discarded_witness :
    resolvedCrawler (some sampleCrawlerLink) none = some sampleCrawlerLink ∧
    (0.002 : ℝ) > 0.001 ∧
    nearCallbackContact 1 (some sampleCrawlerLink) none none none 0.002 ⟨0, 0, 1⟩ = none ∧
    collisionCallbackContact 1 (some sampleCrawlerLink) none 0.002 ⟨0, 0, 1⟩ = none := by
  have hc : resolvedCrawler (some sampleCrawlerLink) none = some sampleCrawlerLink := rfl
  have hd : (0.002 : ℝ) > 0.001 := by norm_num
  have h := tracked_deep_contact_discarded 1 (some sampleCrawlerLink) none none none 0.002
    ⟨0, 0, 1⟩ ⟨0, 0, 1⟩ sampleCrawlerLink hc hd
  exact ⟨hc, hd, h.1, h.2⟩

/-- C5 counterexample: a tracked contact whose rolling direction is zero
(track axis parallel to the contact normal) but whose depth exceeds
`0.001` is discarded, not turned into an isotropic friction constraint. -/
theorem tracked_parallel_deep_counterexample :
    nearCallbackContact 1 (some ⟨M3.ident, ⟨0, 0, 1⟩, .crawler, 0, 0⟩) none none none
      0.002 ⟨0, 0, 1⟩ = none ∧
    (none : Option SurfaceParams) ≠ some (.isotropic 1) := by
  have hd : (0.002 : ℝ) > 0.001 := by norm_num
  exact ⟨by simp [nearCallbackContact, contactSurface, resolvedCrawler, hd], by simp⟩

theorem dot_mecanumRotatedDir_self (theta : ℝ) (n d : V3) :
    V3.dot (mecanumRotatedDir theta n d) (mecanumRotatedDir theta n d) =
      (Real.cos theta) ^ 2 * V3.dot d d +
      ((1 - Real.cos theta) ^ 2 * V3.dot n n +
        2 * Real.cos theta * (1 - Real.cos theta)) * (V3.dot n d) ^ 2 +
      (Real.sin theta) ^ 2 * (V3.dot n n * V3.dot d d - (V3.dot n d) ^ 2) := by
  simp only [mecanumRotatedDir, angleAxisMatrix, M3.transpose, M3.mulVec, V3.dot]
  ring

theorem mecanumRotatedDir_dot_self_of_unit (theta : ℝ) (n d : V3)
    (hn : V3.dot n n = 1) :
    V3.dot (mecanumRotatedDir theta n d) (mecanumRotatedDir theta n d) = V3.dot d d := by
  rw [dot_mecanumRotatedDir_self, hn]
  have hcs := Real.sin_sq_add_cos_sq theta
  linear_combination (V3.dot d d - (V3.dot n d) ^ 2) * hcs

/-- Rotation about a unit contact normal preserves the rolling-direction
norm, so the `dir.norm() < 1.0e-5` fallback test is unaffected by a
mecanum barrel-angle setting. -/
theorem mecanumRotatedDir_vnorm (theta : ℝ) (n d : V3) (hn : V3.dot n n = 1) :
    V3.vnorm (mecanumRotatedDir theta n d) = V3.vnorm d := by
  unfold V3.vnorm
  rw [mecanumRotatedDir_dot_self_of_unit theta n d hn]

/-- C5 (amended): a tracked contact whose rolling direction
track-axis x contact-normal has norm below `1.0e-5` falls back to an
isotropic friction constraint with mu equal to the global friction and no
motion parameter — provided its penetration depth does not exceed `0.001`
(a deeper tracked contact is discarded before the rolling-direction test).
A mecanum barrel-angle setting does not affect the fallback: the built-in
callback applies the norm test to the barrel-rotated direction, and the
rotation about the unit contact normal preserves the norm. -/
theorem tracked_parallel_contact_isotropic (friction : ℝ) (c1 c2 : Option CrawlerLink)
    (m1 m2 : Option ℝ) (depth : ℝ) (n normal : V3) (l : CrawlerLink)
    (hc : resolvedCrawler c1 c2 = some l)
    (hmec : resolvedMecanum c1 c2 m1 m2 = none ∨ V3.dot n n = 1)
    (hdepth : ¬ depth > 0.001)
    (hn : V3.vnorm (V3.cross (l.R.mulVec l.a) n) < 1.0e-5)
    (hn2 : V3.vnorm (V3.cross (l.R.mulVec l.a) ⟨-normal.x, -normal.y, -normal.z⟩) < 1.0e-5) :
    nearCallbackContact friction c1 c2 m1 m2 depth n = some (.isotropic friction) ∧
    collisionCallbackContact friction c1 c2 depth normal = some (.isotropic friction) := by
  constructor
  · cases hmv : resolvedMecanum c1 c2 m1 m2 with
    | none => simp [nearCallbackContact, contactSurface, hc, hmv, hdepth, hn]
    | some barrelAngle =>
      have hunit : V3.dot n n = 1 := by
        rcases hmec with hm | hunit
        · rw [hm] at hmv
          exact absurd hmv (by simp)
        · exact hunit
      have hrot : V3.vnorm (mecanumRotatedDir barrelAngle n
          (V3.cross (l.R.mulVec l.a) n)) < 1.0e-5 := by
        rw [mecanumRotatedDir_vnorm barrelAngle n _ hunit]
        exact hn
      simp [nearCallbackContact, contactSurface, hc, hmv, hdepth, hrot]
  · simp [collisionCallbackContact, hc, hdepth, hn2]

/-- Witness for C5 (amended) at a concrete shallow contact whose track axis
is parallel to the unit contact normal, on a link with a configured
mecanum barrel angle. -/
theorem tracked_parallel_contact_isotropic_witness :
    resolvedCrawler (some (⟨M3.ident, ⟨0, 0, 1⟩, .crawler, 0, 0⟩ : CrawlerLink)) none =
      some ⟨M3.ident, ⟨0, 0, 1⟩, .crawler, 0, 0⟩ ∧
    V3.dot ⟨0, 0, 1⟩ ⟨0, 0, 1⟩ = 1 ∧
    (¬ (0 : ℝ) > 0.001) ∧
    V3.vnorm (V3.cross ((M3.ident).mulVec ⟨0, 0, 1⟩) ⟨0, 0, 1⟩) < 1.0e-5 ∧
    nearCallbackContact 1 (some ⟨M3.ident, ⟨0, 0, 1⟩, .crawler, 0, 0⟩) none
      (some (π / 2)) none 0 ⟨0, 0, 1⟩ = some (.isotropic 1) ∧
    collisionCallbackContact 1 (some ⟨M3.ident, ⟨0, 0, 1⟩, .crawler, 0, 0⟩) none
      0 ⟨0, 0, 1⟩ = some (.isotropic 1) := by
  have hc : resolvedCrawler (some (⟨M3.ident, ⟨0, 0, 1⟩, .crawler, 0, 0⟩ : CrawlerLink)) none =
      some ⟨M3.ident, ⟨0, 0, 1⟩, .crawler, 0, 0⟩ := rfl
  have hunit : V3.dot (⟨0, 0, 1⟩ : V3) ⟨0, 0, 1⟩ = 1 := by
    simp [V3.dot]
  have hd : ¬ (0 : ℝ) > 0.001 := by norm_num
  have hcross : V3.cross ((M3.ident).mulVec (⟨0, 0, 1⟩ : V3)) ⟨0, 0, 1⟩ = 0 := by
    ext <;> simp [M3.ident, M3.mulVec, V3.cross]
  have hn : V3.vnorm (V3.cross ((M3.ident).mulVec (⟨0, 0, 1⟩ : V3)) ⟨0, 0, 1⟩) < 1.0e-5 := by
    rw [hcross, V3.vnorm_zero_v]
    norm_num
  have hcross2 : V3.cross ((M3.ident).mulVec (⟨0, 0, 1⟩ : V3))
      ⟨-(⟨0, 0, 1⟩ : V3).x, -(⟨0, 0, 1⟩ : V3).y, -(⟨0, 0, 1⟩ : V3).z⟩ = 0 := by
    ext <;> simp [M3.ident, M3.mulVec, V3.cross]
  have hn2 : V3.vnorm (V3.cross ((M3.ident).mulVec (⟨0, 0, 1⟩ : V3))
      ⟨-(⟨0, 0, 1⟩ : V3).x, -(⟨0, 0, 1⟩ : V3).y, -(⟨0, 0, 1⟩ : V3).z⟩) < 1.0e-5 := by
    rw [hcross2, V3.vnorm_zero_v]
    norm_num
  have h := tracked_parallel_contact_isotropic 1 (some ⟨M3.ident, ⟨0, 0, 1⟩, .crawler, 0, 0⟩)
    none (some (π / 2)) none 0 ⟨0, 0, 1⟩ ⟨0, 0, 1⟩ ⟨M3.ident, ⟨0, 0, 1⟩, .crawler, 0, 0⟩ hc
    (Or.inr hunit) hd hn hn2
  exact ⟨hc, hunit, hd, hn, h.1, h.2⟩

/-- C3 counterexample: in the external-collision-service callback, a
pseudo-continuous-track contact gets target slip `u`, not the joint
velocity `dq`: for `sampleCrawlerLink` (`dq = 1`, `u = 0`) the created
constraint carries `motion1 = 0` while the claim requires `dq = 1`. -/
theorem tracked_slip_counterexample :
    collisionCallbackContact 1 (some sampleCrawlerLink) none 0 ⟨0, 0, -1⟩ =
      some (.anisotropic 1 0.5 0 ⟨1, 0, 0⟩) ∧
    sampleCrawlerLink.jointType = .pseudoContinuousTrack ∧
    sampleCrawlerLink.dq = 1 ∧ ((0 : ℝ) ≠ 1) := by
  refine ⟨?_, rfl, rfl, by norm_num⟩
  have hd : ¬ (0 : ℝ) > 0.001 := by norm_num
  have hneg : (⟨-(⟨0, 0, -1⟩ : V3).x, -(⟨0, 0, -1⟩ : V3).y, -(⟨0, 0, -1⟩ : V3).z⟩ : V3) =
      ⟨0, 0, 1⟩ := by
    ext <;> norm_num
  have hcross : V3.cross ((sampleCrawlerLink.R).mulVec sampleCrawlerLink.a)
      (⟨0, 0, 1⟩ : V3) = ⟨1, 0, 0⟩ := sampleCrawlerLink_dir
  have hv : ¬ V3.vnorm (⟨1, 0, 0⟩ : V3) < 1.0e-5 := by
    rw [V3.vnorm_unit_x]
    norm_num
  have hnmz : V3.vnormalize ((1 : ℝ) • (⟨1, 0, 0⟩ : V3)) = ⟨1, 0, 0⟩ := by
    rw [V3.one_smul_v, V3.vnormalize, V3.vnorm_unit_x]
    ext <;> simp
  simp only [collisionCallbackContact, resolvedCrawler, resolvedSign, hneg, hcross]
  simp [hd, hv, hnmz, sampleCrawlerLink]

/-- C3 (amended): for a contact where exactly one body is tracked, with
penetration depth at most `0.001`, no mecanum barrel-angle setting, and a
valid rolling direction (norm at least `1.0e-5`), the created constraint
is anisotropic with mu1 = global friction and mu2 = 0.5, its friction
direction is the normalised rolling direction with the sign negated
exactly when the second body is the tracked one, and its target slip is
`dq` for a pseudo-continuous track and `u` otherwise in the built-in near
callback, but always `u` in the external-collision-service callback. -/
theorem tracked_contact_anisotropic (fric : ℝ) (l : CrawlerLink) (m1 m2 : Option ℝ)
    (depth : ℝ) (n normal : V3)
    (hdepth : ¬ depth > 0.001)
    (hdir : ¬ V3.vnorm (V3.cross (l.R.mulVec l.a) n) < 1.0e-5)
    (hdir2 : ¬ V3.vnorm (V3.cross (l.R.mulVec l.a)
      ⟨-normal.x, -normal.y, -normal.z⟩) < 1.0e-5) :
    (nearCallbackContact fric (some l) none none m2 depth n =
      some (.anisotropic fric 0.5
        (if l.jointType = .pseudoContinuousTrack then l.dq else l.u)
        (V3.vnormalize (V3.cross (l.R.mulVec l.a) n)))) ∧
    (nearCallbackContact fric none (some l) m1 none depth n =
      some (.anisotropic fric 0.5
        (if l.jointType = .pseudoContinuousTrack then l.dq else l.u)
        (V3.vnormalize ((-1 : ℝ) • V3.cross (l.R.mulVec l.a) n)))) ∧
    (collisionCallbackContact fric (some l) none depth normal =
      some (.anisotropic fric 0.5 l.u
        (V3.vnormalize (V3.cross (l.R.mulVec l.a)
          ⟨-normal.x, -normal.y, -normal.z⟩)))) ∧
    (collisionCallbackContact fric none (some l) depth normal =
      some (.anisotropic fric 0.5 l.u
        (V3.vnormalize ((-1 : ℝ) • V3.cross (l.R.mulVec l.a)
          ⟨-normal.x, -normal.y, -normal.z⟩)))) := by
  refine ⟨?_, ?_, ?_, ?_⟩
  · simp [nearCallbackContact, contactSurface, resolvedCrawler, resolvedSign, resolvedMecanum,
      hdepth, hdir, V3.one_smul_v]
  · simp [nearCallbackContact, contactSurface, resolvedCrawler, resolvedSign, resolvedMecanum,
      hdepth, hdir]
  · simp [collisionCallbackContact, resolvedCrawler, resolvedSign, hdepth, hdir2, V3.one_smul_v]
  · simp [collisionCallbackContact, resolvedCrawler, resolvedSign, hdepth, hdir2]

/-- Witness for C3 (amended) at `sampleCrawlerLink`, contact normal
`(0,0,1)` in the near callback and collision normal `(0,0,-1)` in the
external callback. -/
theorem tracked_contact_anisotropic_witness :
    (¬ (0 : ℝ) > 0.001) ∧
    (¬ V3.vnorm (V3.cross ((sampleCrawlerLink.R).mulVec sampleCrawlerLink.a)
      ⟨0, 0, 1⟩) < 1.0e-5) ∧
    nearCallbackContact 1 (some sampleCrawlerLink) none none none 0 ⟨0, 0, 1⟩ =
      some (.anisotropic 1 0.5
        (if sampleCrawlerLink.jointType = .pseudoContinuousTrack
          then sampleCrawlerLink.dq else sampleCrawlerLink.u)
        (V3.vnormalize (V3.cross ((sampleCrawlerLink.R).mulVec sampleCrawlerLink.a)
          ⟨0, 0, 1⟩))) := by
  have hd : ¬ (0 : ℝ) > 0.001 := by norm_num
  have hdir : ¬ V3.vnorm (V3.cross ((sampleCrawlerLink.R).mulVec sampleCrawlerLink.a)
      (⟨0, 0, 1⟩ : V3)) < 1.0e-5 := by
    rw [sampleCrawlerLink_dir, V3.vnorm_unit_x]
    norm_num
  have hdir2 : ¬ V3.vnorm (V3.cross ((sampleCrawlerLink.R).mulVec sampleCrawlerLink.a)
      (⟨-(⟨0, 0, -1⟩ : V3).x, -(⟨0, 0, -1⟩ : V3).y, -(⟨0, 0, -1⟩ : V3).z⟩ : V3)) < 1.0e-5 := by
    have hneg : (⟨-(⟨0, 0, -1⟩ : V3).x, -(⟨0, 0, -1⟩ : V3).y, -(⟨0, 0, -1⟩ : V3).z⟩ : V3) =
        ⟨0, 0, 1⟩ := by
      ext <;> norm_num
    rw [hneg, sampleCrawlerLink_dir, V3.vnorm_unit_x]
    norm_num
  exact ⟨hd, hdir,
    (tracked_contact_anisotropic 1 sampleCrawlerLink none none 0 ⟨0, 0, 1⟩ ⟨0, 0, -1⟩
      hd hdir hdir2).1⟩

/-!
## Adapter construction (`ODELink::ODELink`, `ODEBody::createBody`)

The kinematic tree is embedded through the `child`/`sibling` pointer
structure that the `ODELink` constructor traverses (`link->child()`,
`child->sibling()`); `CLink.nil` stands for a null pointer.  A node's
chain comprises the node itself, its child chain and its sibling chain.
-/

/-- A `cnoid::Link` pointer: null, or a link with a first-child pointer
and a next-sibling pointer. -/
inductive CLink where
  | nil : CLink
  | mk (child : CLink) (sibling : CLink) : CLink

/-- Number of links in a chain. -/
def numLinks : CLink → Nat
  | .nil => 0
  | .mk c s => 1 + numLinks c + numLinks s

/-- A link chain decorated with the indices assigned by the kinematic-model
collaborator. -/
inductive ICLink where
  | nil : ICLink
  | mk (idx : Nat) (child : ICLink) (sibling : ICLink) : ICLink

/-- Modelled from the spec: `link->index()` is assigned by the `Body`
collaborator, which is not part of this source; per the specification the
body keeps an "index-aligned vector of LinkAdapters mirroring the
kinematic tree", i.e. indices follow the depth-first order of the tree.
`assignIndices t k` decorates the chain `t` with consecutive indices
starting at `k` in that order and returns the next free index. -/
def assignIndices : CLink → Nat → ICLink × Nat
  | .nil, k => (.nil, k)
  | .mk c s, k =>
    let r1 := assignIndices c (k + 1)
    let r2 := assignIndices s r1.2
    (.mk k r1.1 r2.1, r2.2)

/-- The order in which the recursive `ODELink` constructor pushes adapters
into `odeBody->odeLinks` (`push_back(this)` before constructing the child
chain), projected to each adapter's `link->index()`. -/
def odeLinksIndexList : ICLink → List Nat
  | .nil => []
  | .mk i c s => i :: (odeLinksIndexList c ++ odeLinksIndexList s)

theorem odeLinksIndexList_assignIndices (t : CLink) :
    ∀ k : Nat, odeLinksIndexList (assignIndices t k).1 = List.range' k (numLinks t) ∧
      (assignIndices t k).2 = k + numLinks t := by
  induction t with
  | nil => intro k; simp [assignIndices, odeLinksIndexList, numLinks]
  | mk c s ihc ihs =>
    intro k
    have hc := ihc (k + 1)
    have hs := ihs (k + 1 + numLinks c)
    constructor
    · show odeLinksIndexList (.mk k (assignIndices c (k + 1)).1
        (assignIndices s (assignIndices c (k + 1)).2).1) = _
      rw [odeLinksIndexList, hc.1, hc.2, hs.1, numLinks]
      have happ : List.range' (k + 1) (numLinks c) ++
          List.range' (k + 1 + numLinks c) (numLinks s) =
          List.range' (k + 1) (numLinks c + numLinks s) := by
        have h := List.range'_append (k + 1) (numLinks c) (numLinks s) 1
        simpa [Nat.add_comm, Nat.add_assoc, Nat.add_left_comm] using h
      rw [happ]
      have hsucc : List.range' k (1 + (numLinks c + numLinks s)) =
          k :: List.range' (k + 1) (numLinks c + numLinks s) := by
        rw [Nat.add_comm 1 (numLinks c + numLinks s)]
        exact List.range'_succ k (numLinks c + numLinks s) 1
      rw [Nat.add_assoc]
      exact hsucc.symm
    · show (assignIndices s (assignIndices c (k + 1)).2).2 = _
      rw [hc.2, hs.2, numLinks]
      omega

/-- C6: for every kinematic tree, `ODEBody::createBody` (through the
recursive `ODELink` constructor) produces exactly one adapter per link,
and the adapter at position `i` of `odeLinks` wraps the link whose index
is `i`: the pushed index sequence is exactly `0, 1, ..., n-1`. -/
theorem createBody_adapters_index_aligned (t : CLink) :
    (odeLinksIndexList (assignIndices t 0).1).length = numLinks t ∧
    odeLinksIndexList (assignIndices t 0).1 = List.range (numLinks t) := by
  have h := (odeLinksIndexList_assignIndices t 0).1
  constructor
  · rw [h, List.length_range']
  · rw [h, List.range_eq_range']

/-!
## Step loop (`ODESimulatorItemImpl::stepSimulation`)

The dynamics internal to the ODE library are abstracted as parameters:
`β` is the solver-side state of one body, `γ` one contact joint of the
transient contact joint group, `actuate` the per-body actuation write
(`setVelocityToODE`/`setTorqueToODE`), `collide` the collision phase
creating this step's contact joints (`dSpaceCollide` with `nearCallback`,
or the external detector with `collisionCallback`), `integrate` one solver
step (`dWorldQuickStep`/`dWorldStep`), and `pull` the per-body post-step
state extraction (`updateForceSensors`, `getKinematicStateFromODE`,
sensor refresh).
-/

/-- Transient solver world state: the contact joint group
(`contactJointGroupID`) and the solver bodies. -/
structure SimWorld (β γ : Type) where
  contactGroup : List γ
  bodies : List β

variable {β γ : Type}

/-- The actuation phase at the top of `stepSimulation`. -/
def actuatePhase (actuate : β → β) (s : SimWorld β γ) : SimWorld β γ :=
  { s with bodies := s.bodies.map actuate }

/-- Embedding of `dJointGroupEmpty(contactJointGroupID)`: the transient contact joint
group is emptied. -/
def clearContactGroup (s : SimWorld β γ) : SimWorld β γ :=
  { s with contactGroup := [] }

/-- The collision phase: the contact joints created by the callbacks are
added into the contact joint group. -/
def collidePhase (collide : List β → List γ) (s : SimWorld β γ) : SimWorld β γ :=
  { s with contactGroup := s.contactGroup ++ collide s.bodies }

/-- The integration phase (`dWorldQuickStep`/`dWorldStep`). -/
def integratePhase (integrate : List β → List γ → List β) (s : SimWorld β γ) :
    SimWorld β γ :=
  { s with bodies := integrate s.bodies s.contactGroup }

/-- The per-body post-step phase: 2D realignment when `is2Dmode`, then
state extraction. -/
def postStepPhase (is2Dmode : Bool) (align pull : β → β) (s : SimWorld β γ) :
    SimWorld β γ :=
  { s with bodies := s.bodies.map (fun b => pull (if is2Dmode then align b else b)) }

/-- Embedding of `ODESimulatorItemImpl::stepSimulation`: actuate, empty the contact
joint group, collide, integrate, post-step. -/
def stepSimulation (actuate : β → β) (collide : List β → List γ)
    (integrate : List β → List γ → List β) (is2Dmode : Bool) (align pull : β → β)
    (s : SimWorld β γ) : SimWorld β γ :=
  postStepPhase is2Dmode align pull
    (integratePhase integrate
      (collidePhase collide
        (clearContactGroup
          (actuatePhase actuate s))))

/-- C7: in every step the transient contact joint group is emptied before
the collision phase begins — it has size 0 immediately before each
collision phase, after a step it holds exactly the contact joints created
by that step's collision phase, and the step result does not depend on
any contact joints retained from a previous step. -/
theorem contact_group_cleared_each_step (actuate : β → β) (collide : List β → List γ)
    (integrate : List β → List γ → List β) (is2Dmode : Bool) (align pull : β → β)
    (s : SimWorld β γ) (g : List γ) :
    (clearContactGroup (actuatePhase actuate s)).contactGroup = [] ∧
    (stepSimulation actuate collide integrate is2Dmode align pull s).contactGroup =
      collide ((actuatePhase actuate s).bodies) ∧
    stepSimulation actuate collide integrate is2Dmode align pull
        { s with contactGroup := g } =
      stepSimulation actuate collide integrate is2Dmode align pull s := by
  refine ⟨rfl, ?_, rfl⟩
  simp [stepSimulation, postStepPhase, integratePhase, collidePhase, clearContactGroup,
    actuatePhase]

/-!
## 2D alignment (`ODEBody::alignToZAxisIn2Dmode`)
-/

/-- Root-body solver state touched by `alignToZAxisIn2Dmode`: orientation
quaternion and angular velocity. -/
structure RootState where
  q : Quaternion ℝ
  w : V3

/-- The constant `r = Quat(AngleAxis(PI/2, (1,0,0)))` of
`alignToZAxisIn2Dmode`: the plane-aligning rotation. -/
def flipXQuat : Quaternion ℝ := ⟨Real.cos (π / 4), Real.sin (π / 4), 0, 0⟩

/-- The statements `q2.x() = 0.0; q2.z() = 0.0`: zero the out-of-plane quaternion
components in the plane-aligned frame. -/
def zeroOutOfPlane (q : Quaternion ℝ) : Quaternion ℝ := ⟨q.re, 0, q.imJ, 0⟩

/-- Eigen's quaternion `normalize()`. -/
def qnormalize (q : Quaternion ℝ) : Quaternion ℝ := ‖q‖⁻¹ • q

/-- Embedding of `ODEBody::alignToZAxisIn2Dmode`: rotate the root orientation into the
plane-aligned frame, zero the out-of-plane components, renormalise, rotate
back; zero the out-of-plane angular velocity keeping the in-plane spin
`w[2]`. -/
def alignToZAxisIn2Dmode (b : RootState) : RootState :=
  { q := flipXQuat⁻¹ * qnormalize (zeroOutOfPlane (flipXQuat * b.q))
    w := ⟨0, 0, b.w.z⟩ }

theorem flipXQuat_ne_zero : flipXQuat ≠ 0 := by
  intro h
  have h2 := congrArg Quaternion.re h
  rw [flipXQuat] at h2
  simp only [Quaternion.zero_re] at h2
  rw [Real.cos_pi_div_four] at h2
  have h3 : (0 : ℝ) < Real.sqrt 2 / 2 := by positivity
  simp only [h2] at h3
  exact lt_irrefl 0 h3

/-- C8: when 2D mode is active, the post-step of every step applies
`alignToZAxisIn2Dmode` to each body before pulling its state; the aligned
root orientation, viewed in the plane-aligned frame, has zero out-of-plane
quaternion components and unit norm, and the aligned angular velocity has
its out-of-plane components zeroed while the in-plane spin component is
preserved. -/
theorem align_to_z_axis_in_2d_mode (actuate : RootState → RootState)
    (collide : List RootState → List γ)
    (integrate : List RootState → List γ → List RootState)
    (pull : RootState → RootState) (s : SimWorld RootState γ) (b : RootState)
    (hq : zeroOutOfPlane (flipXQuat * b.q) ≠ 0) :
    ((stepSimulation actuate collide integrate true alignToZAxisIn2Dmode pull s).bodies =
      ((integratePhase integrate
        (collidePhase collide
          (clearContactGroup (actuatePhase actuate s)))).bodies).map
        (fun x => pull (alignToZAxisIn2Dmode x))) ∧
    (flipXQuat * (alignToZAxisIn2Dmode b).q).imI = 0 ∧
    (flipXQuat * (alignToZAxisIn2Dmode b).q).imK = 0 ∧
    ‖flipXQuat * (alignToZAxisIn2Dmode b).q‖ = 1 ∧
    (alignToZAxisIn2Dmode b).w.x = 0 ∧ (alignToZAxisIn2Dmode b).w.y = 0 ∧
    (alignToZAxisIn2Dmode b).w.z = b.w.z := by
  have hcancel : flipXQuat * (alignToZAxisIn2Dmode b).q =
      qnormalize (zeroOutOfPlane (flipXQuat * b.q)) := by
    simp only [alignToZAxisIn2Dmode]
    exact mul_inv_cancel_left₀ flipXQuat_ne_zero _
  refine ⟨rfl, ?_, ?_, ?_, rfl, rfl, rfl⟩
  · rw [hcancel]
    simp [qnormalize, zeroOutOfPlane]
  · rw [hcancel]
    simp [qnormalize, zeroOutOfPlane]
  · rw [hcancel, qnormalize, norm_smul, norm_inv, norm_norm]
    exact inv_mul_cancel₀ (norm_ne_zero_iff.mpr hq)

/-- Witness for C8 at the identity orientation and angular velocity
`(5, 7, 9)`. -/
theorem align_to_z_axis_in_2d_mode_witness :
    zeroOutOfPlane (flipXQuat * (⟨1, ⟨5, 7, 9⟩⟩ : RootState).q) ≠ 0 ∧
    ‖flipXQuat * (alignToZAxisIn2Dmode (⟨1, ⟨5, 7, 9⟩⟩ : RootState)).q‖ = 1 ∧
    (alignToZAxisIn2Dmode (⟨1, ⟨5, 7, 9⟩⟩ : RootState)).w.x = 0 ∧
    (alignToZAxisIn2Dmode (⟨1, ⟨5, 7, 9⟩⟩ : RootState)).w.z = 9 := by
  have hq : zeroOutOfPlane (flipXQuat * (⟨1, ⟨5, 7, 9⟩⟩ : RootState).q) ≠ 0 := by
    intro h
    have h2 := congrArg Quaternion.re h
    simp only [mul_one, zeroOutOfPlane, Quaternion.zero_re] at h2
    rw [flipXQuat] at h2
    simp only at h2
    rw [Real.cos_pi_div_four] at h2
    have h3 : (0 : ℝ) < Real.sqrt 2 / 2 := by positivity
    simp only [h2] at h3
    exact lt_irrefl 0 h3
  have h := align_to_z_axis_in_2d_mode (γ := Unit) id (fun _ => []) (fun bs _ => bs) id
    ⟨[], []⟩ ⟨1, ⟨5, 7, 9⟩⟩ hq
  exact ⟨hq, h.2.2.2.1, h.2.2.2.2.1, h.2.2.2.2.2.2⟩

/-!
## `NailedObjectManager` (NailedObjectManager.cpp)

The registry `objectMap` is a `std::map<dBodyID, NailedObjectPtr>`; body
handles are abstracted as naturals, and the null pointer returned by
`get` as `none`.
-/

/-- A nailed object; only the owning body handle (`getBodyID`) matters for
the registry. -/
structure NailedObject where
  bodyID : Nat

/-- Lookup in the ordered map `objectMap` (`std::map::find`). -/
def lookupObj : List (Nat × NailedObject) → Nat → Option NailedObject
  | [], _ => none
  | (k, v) :: rest, b => if b = k then some v else lookupObj rest b

/-- The registry state of `NailedObjectManager`. -/
structure NailedObjectManager where
  objectMap : List (Nat × NailedObject)

namespace NailedObjectManager

/-- A freshly constructed manager: empty registry. -/
def empty : NailedObjectManager := ⟨[]⟩

/-- Embedding of `NailedObjectManager::addObject`:
`objectMap.insert(make_pair(obj->getBodyID(), obj))`; `std::map::insert`
leaves an existing key unchanged. -/
def addObject (m : NailedObjectManager) (obj : NailedObject) : NailedObjectManager :=
  if (lookupObj m.objectMap obj.bodyID).isSome then m
  else ⟨(obj.bodyID, obj) :: m.objectMap⟩

/-- Embedding of `NailedObjectManager::find`: returns whether `bodyID` is registered;
the registry is returned unchanged. -/
def find (m : NailedObjectManager) (bodyID : Nat) : Bool × NailedObjectManager :=
  ((lookupObj m.objectMap bodyID).isSome, m)

/-- Embedding of `NailedObjectManager::get`: returns the registered object or the null
pointer (`none`); the registry is returned unchanged. -/
def get (m : NailedObjectManager) (bodyID : Nat) : Option NailedObject × NailedObjectManager :=
  (lookupObj m.objectMap bodyID, m)

/-- A manager built by registering the given objects, in order, starting
from the empty registry. -/
def buildManager (objs : List NailedObject) : NailedObjectManager :=
  objs.foldl addObject empty

theorem lookupObj_addObject (m : NailedObjectManager) (o : NailedObject) (b : Nat) :
    (lookupObj (addObject m o).objectMap b).isSome =
      ((lookupObj m.objectMap b).isSome || b == o.bodyID) := by
  unfold addObject
  by_cases h : (lookupObj m.objectMap o.bodyID).isSome
  · rw [if_pos h]
    by_cases hb : b = o.bodyID
    · subst hb
      simp [h]
    · simp [hb]
  · rw [if_neg h]
    by_cases hb : b = o.bodyID
    · subst hb
      simp [lookupObj]
    · simp [lookupObj, hb]

theorem lookupObj_foldl (objs : List NailedObject) (m : NailedObjectManager) (b : Nat) :
    (lookupObj (objs.foldl addObject m).objectMap b).isSome =
      ((lookupObj m.objectMap b).isSome || objs.any (fun o => b == o.bodyID)) := by
  induction objs generalizing m with
  | nil => simp
  | cons o rest ih =>
    rw [List.foldl_cons, ih, lookupObj_addObject]
    simp [Bool.or_assoc]

/-- C9: `find` returns true exactly when `get` returns a non-null object;
`get` returns the null pointer exactly when no nailed object has been
registered under the body handle; and neither call modifies the
registry. -/
theorem find_get_agree (m : NailedObjectManager) (b : Nat) (objs : List NailedObject) :
    ((find m b).1 = true ↔ ((get m b).1).isSome = true) ∧
    (find m b).2 = m ∧
    (get m b).2 = m ∧
    ((get (buildManager objs) b).1 = none ↔
      b ∉ objs.map NailedObject.bodyID) := by
  refine ⟨Iff.rfl, rfl, rfl, ?_⟩
  have h := lookupObj_foldl objs empty b
  simp only [get, buildManager]
  constructor
  · intro hnone
    intro hmem
    rw [List.mem_map] at hmem
    obtain ⟨o, ho, hob⟩ := hmem
    have : (lookupObj (objs.foldl addObject empty).objectMap b).isSome = true := by
      rw [h]
      simp [empty, lookupObj]
      exact ⟨o, ho, hob.symm⟩
    rw [hnone] at this
    simp at this
  · intro hmem
    cases hl : lookupObj (objs.foldl addObject empty).objectMap b with
    | none => rfl
    | some v =>
      exfalso
      have : (lookupObj (objs.foldl addObject empty).objectMap b).isSome = true := by
        rw [hl]
        rfl
      rw [h] at this
      simp [empty, lookupObj] at this
      obtain ⟨o, ho, hob⟩ := this
      exact hmem (List.mem_map.mpr ⟨o, ho, hob.symm⟩)

end NailedObjectManager

/-!
## `ODESimulatorItemImpl::addBody`
-/

/-- Root-link state fields touched by `addBody`: configuration `p`, `R`
(untouched) and the velocities/accelerations that are zeroed. -/
structure RootLinkState where
  p : V3
  R : M3
  v : V3
  dv : V3
  w : V3
  dw : V3

/-- Per-joint state (`joint->q/u/dq/ddq`). -/
structure JointState where
  q : ℝ
  u : ℝ
  dq : ℝ
  ddq : ℝ

/-- The kinematic-model state touched by `addBody`. -/
structure BodyModel where
  root : RootLinkState
  joints : List JointState
  externalForces : List V3

/-- The actuation-state reset at the top of `addBody`: zero the root
link's linear/angular velocity and acceleration, set every joint's `u`,
`dq` and `ddq` to `0`, and clear external forces; joint positions and the
root configuration are untouched. -/
def resetBodyOnAdd (b : BodyModel) : BodyModel :=
  { root := { b.root with v := 0, dv := 0, w := 0, dw := 0 }
    joints := b.joints.map (fun j => { j with u := 0, dq := 0, ddq := 0 })
    externalForces := [] }

/-- Embedding of `ODESimulatorItemImpl::addBody`: the reset runs first, then forward
kinematics is recomputed (`calcForwardKinematics`, a collaborator `fk`),
then the solver body is created (`createBody`, abstracted as `create`). -/
def addBody {σ : Type} (fk : BodyModel → BodyModel) (create : BodyModel → σ)
    (b : BodyModel) : σ :=
  create (fk (resetBodyOnAdd b))

/-- C10: `addBody` always resets the model's actuation state — root
velocities and accelerations zeroed, every joint's `u`, `dq`, `ddq` set to
`0`, external forces cleared, configuration preserved — and only then is
forward kinematics recomputed and the solver body created. -/
theorem addBody_resets_actuation_state (b : BodyModel) :
    (resetBodyOnAdd b).root.v = 0 ∧ (resetBodyOnAdd b).root.dv = 0 ∧
    (resetBodyOnAdd b).root.w = 0 ∧ (resetBodyOnAdd b).root.dw = 0 ∧
    (∀ j ∈ (resetBodyOnAdd b).joints, j.u = 0 ∧ j.dq = 0 ∧ j.ddq = 0) ∧
    (resetBodyOnAdd b).externalForces = [] ∧
    (resetBodyOnAdd b).root.p = b.root.p ∧
    (resetBodyOnAdd b).joints.length = b.joints.length ∧
    (∀ (σ : Type) (fk : BodyModel → BodyModel) (create : BodyModel → σ),
      addBody fk create b = create (fk (resetBodyOnAdd b))) := by
  refine ⟨rfl, rfl, rfl, rfl, ?_, rfl, rfl, ?_, ?_⟩
  · intro j hj
    simp only [resetBodyOnAdd, List.mem_map] at hj
    obtain ⟨j0, _, hj0⟩ := hj
    rw [← hj0]
    exact ⟨rfl, rfl, rfl⟩
  · simp [resetBodyOnAdd]
  · intro σ fk create
    rfl

/-- A concrete body used by the C10 witness: one joint with non-zero
actuation state. -/
def sampleBody : BodyModel :=
  { root := ⟨⟨1, 2, 3⟩, M3.ident, ⟨4, 4, 4⟩, ⟨5, 5, 5⟩, ⟨6, 6, 6⟩, ⟨7, 7, 7⟩⟩
    joints := [⟨3, 4, 5, 6⟩]
    externalForces := [⟨1, 1, 1⟩] }

/-- Witness for C10 at `sampleBody`. -/
theorem addBody_resets_actuation_state_witness :
    (⟨3, 0, 0, 0⟩ : JointState) ∈ (resetBodyOnAdd sampleBody).joints ∧
    (⟨3, 0, 0, 0⟩ : JointState).u = 0 ∧ (⟨3, 0, 0, 0⟩ : JointState).dq = 0 ∧
    (⟨3, 0, 0, 0⟩ : JointState).ddq = 0 ∧
    (resetBodyOnAdd sampleBody).root.v = 0 ∧
    (resetBodyOnAdd sampleBody).externalForces = [] := by
  have hj : (resetBodyOnAdd sampleBody).joints = [⟨3, 0, 0, 0⟩] := rfl
  have hmem : (⟨3, 0, 0, 0⟩ : JointState) ∈ (resetBodyOnAdd sampleBody).joints := by
    rw [hj]
    exact List.mem_singleton.mpr rfl
  have h := addBody_resets_actuation_state sampleBody
  have hu := h.2.2.2.2.1 _ hmem
  exact ⟨hmem, hu.1, hu.2.1, hu.2.2, h.1, h.2.2.2.2.2.1⟩

end
